import Mathlib

/-!
Verification development for the node-volapi session protocol engine.

The definitions below shallowly embed the protocol code of the repository:
the sequence-numbered acknowledgment layer (`Room.call`, `Room.sendAck`,
`Room.sendClose`), the envelope dispatcher (`Handler.onmessage`), the
callback-RPC layer (`Handler.registerCallback`, `Handler.handle_callback`),
the message role classification (the `Message` constructor) and the file
expiry sweep (`Room.expireFiles` and the `files` accessor).
-/

namespace Volapi

/-- JSON values as produced by JSON.stringify / consumed by JSON.parse. -/
inductive JValue where
  | null : JValue
  | bool (b : Bool) : JValue
  | num (n : Int) : JValue
  | str (s : String) : JValue
  | arr (elems : List JValue) : JValue
  | obj (fields : List (String × JValue)) : JValue

/-- Errors thrown synchronously by Room methods (`VolaError` and friends). -/
inductive VolaErr where
  | notConnected : VolaErr
  | notAString : VolaErr
  | emptyMessage : VolaErr
  | messageTooLong : VolaErr
  | cannotAchat : VolaErr
deriving DecidableEq, Repr

/-- A file entity as constructed by the `File` constructor: the `expires`
instant is already clock-corrected (`room.fixTime`). Times in ms. -/
structure FileEntity where
  id : String
  name : String
  expires : Int
  uploaded : Int
deriving DecidableEq, Repr

/-- `File.validFor`: `this.expires - Date.now()`. -/
def FileEntity.validFor (f : FileEntity) (now : Int) : Int :=
  f.expires - now

/-- `File.expired`: `this.validFor < 0`. -/
def FileEntity.expired (f : FileEntity) (now : Int) : Bool :=
  f.validFor now < 0

/-- The mutable per-room state of the protocol engine relevant to the
sequencer and dispatcher claims. Mirrors the fields set up in the `Room`
constructor: `this.ack = this.sack = this.last_sack = -1`, flags false,
and the symbol-keyed FILES map. -/
structure RoomState where
  connected : Bool := false
  closed : Bool := false
  admin : Bool := false
  staff : Bool := false
  nick : String := "volaham"
  ack : Int := -1
  sack : Int := -1
  last_sack : Int := -1
  last_ack : Int := -1
  chat_max_message_length : Option Nat := none
  files : List (String × FileEntity) := []

/-- Fresh room state right after the `Room` constructor ran. -/
def initialRoom : RoomState := {}

/-- The outbound call frame built by `Room.call`:
`JSON.stringify([this.sack, [[0, ["call", { fn, args }]], ++this.ack]])`. -/
def buildCallFrame (sack ack : Int) (fn : String) (args : List JValue) : JValue :=
  .arr [.num sack,
        .arr [.arr [.num 0, .arr [.str "call", .obj [("fn", .str fn), ("args", .arr args)]]],
              .num ack]]

/-- The ack-only frame built by `Room.sendAck`: `JSON.stringify([this.sack])`. -/
def buildAckFrame (sack : Int) : JValue :=
  .arr [.num sack]

/-- The close frame built by `Room.sendClose`:
`JSON.stringify([this.sack, [[2], ++this.ack]])`. -/
def buildCloseFrame (sack ack : Int) : JValue :=
  .arr [.num sack, .arr [.arr [.num 2], .num ack]]

/-- `Room.call(fn, ...args)`: throws when not connected; otherwise
increments `ack`, serializes the frame with the current `sack` and the
incremented `ack`, records `last_sack = sack` and sends the frame. -/
def Room.call (st : RoomState) (fn : String) (args : List JValue) :
    Except VolaErr (RoomState × JValue) :=
  if !st.connected then
    .error .notConnected
  else
    let newAck := st.ack + 1
    .ok ({ st with ack := newAck, last_sack := st.sack },
         buildCallFrame st.sack newAck fn args)

/-- `Room.sendAck()`: returns without sending when not connected or when
`last_sack === sack`; otherwise sends `[sack]` and records
`last_sack = sack`. -/
def Room.sendAck (st : RoomState) : RoomState × Option JValue :=
  if !st.connected || st.last_sack == st.sack then
    (st, none)
  else
    ({ st with last_sack := st.sack }, some (buildAckFrame st.sack))

/-- `Room.sendClose()`: throws when not connected; otherwise increments
`ack` and sends the close frame (send failures are caught and logged,
which does not affect the state transition). -/
def Room.sendClose (st : RoomState) : Except VolaErr (RoomState × JValue) :=
  if !st.connected then
    .error .notConnected
  else
    let newAck := st.ack + 1
    .ok ({ st with ack := newAck }, buildCloseFrame st.sack newAck)

/-- `Room.close()`: sets `this.closed = true`, then `_close()` awaits
`sendClose()` and tears down the transport; a rejection of the close
sequence is swallowed (`.catch(console.error)`), so no error escapes. -/
def Room.close (st : RoomState) : RoomState × Option JValue :=
  let st1 := { st with closed := true }
  match Room.sendClose st1 with
  | .ok (st2, fr) => (st2, some fr)
  | .error _ => (st1, none)

/-- `MAX_UNACKNOWLEDGED` from handler.js. -/
def MAX_UNACKNOWLEDGED : Int := 10

/-- One `[[type, msg], seq]` element of an inbound array frame, after the
per-element destructuring in `Handler.onmessage`. A numeric envelope type
of 2 is the close control; any other envelope carries an inner
`[type, msg]` pair naming the typed event. -/
inductive EnvBody where
  | close : EnvBody
  | typed (ty : String) (payload : JValue) : EnvBody

/-- An inbound dispatch entry: envelope body plus the per-event server
sequence number that `Handler.onmessage` stores into `room.sack`. -/
structure Entry where
  body : EnvBody
  seq : Int

/-- What a typed-envelope handler did: the room state it left behind, the
events it emitted before returning or throwing, and the exception it
threw, if any. -/
structure HandlerOutcome where
  room : RoomState
  events : List String := []
  thrown : Option String := none

/-- A typed-envelope handler: `handle_<type>` or the generic fallback. -/
def HandlerFun : Type :=
  String → JValue → RoomState → HandlerOutcome

/-- Accumulated dispatcher run: room state, the (type, payload) pairs
whose handler was invoked, the (type, payload) pairs logged by the inner
catch, the outbound frames sent, and the events emitted. -/
structure Dispatch where
  room : RoomState
  invoked : List (String × JValue) := []
  logged : List (String × JValue) := []
  frames : List JValue := []
  events : List String := []

/-- The inner try/catch of `Handler.onmessage`: invoke the handler; on an
exception, log `"Failed to handle"` with the offending type and payload
and continue. -/
def dispatchHandle (handler : HandlerFun) (d : Dispatch) (ty : String)
    (payload : JValue) : Dispatch :=
  let o := handler ty payload d.room
  { room := o.room,
    invoked := d.invoked ++ [(ty, payload)],
    logged := d.logged ++ (if o.thrown.isSome then [(ty, payload)] else []),
    frames := d.frames,
    events := d.events ++ o.events }

/-- The per-envelope acknowledgment check of `Handler.onmessage`:
`if (this.room.sack >= this.room.last_sack + MAX_UNACKNOWLEDGED)
this.room.sendAck();`. -/
def ackFlushCheck (d : Dispatch) : Dispatch :=
  if d.room.last_sack + MAX_UNACKNOWLEDGED ≤ d.room.sack then
    { d with room := (Room.sendAck d.room).1,
             frames := d.frames ++ (Room.sendAck d.room).2.toList }
  else
    d

/-- One iteration of the `for (const d of data)` loop in
`Handler.onmessage` (part_004): store the per-event sequence into
`room.sack`; a type-2 envelope closes the room and `continue`s (skipping
the ack check); otherwise dispatch to the handler under the inner
try/catch, then run the ack flush check. -/
def stepEntry (handler : HandlerFun) (d : Dispatch) (e : Entry) : Dispatch :=
  let d0 := { d with room := { d.room with sack := e.seq } }
  match e.body with
  | .close =>
    { d0 with room := (Room.close d0.room).1,
              frames := d0.frames ++ (Room.close d0.room).2.toList }
  | .typed ty payload =>
    ackFlushCheck (dispatchHandle handler d0 ty payload)

/-- The array branch of `Handler.onmessage`: `room.last_ack` takes the
shifted cumulative server ack, then every remaining entry is processed in
order. -/
def onmessageArray (handler : HandlerFun) (st : RoomState) (serverAck : Int)
    (entries : List Entry) : Dispatch :=
  entries.foldl (stepEntry handler) { room := { st with last_ack := serverAck } }

/-- The inner (type, payload) pairs of the typed envelopes of a batch, in
order. -/
def typedEnvelopes (entries : List Entry) : List (String × JValue) :=
  entries.filterMap fun e =>
    match e.body with
    | .close => none
    | .typed ty payload => some (ty, payload)

/-- Session events that touch the sequencer state, for reasoning about
arbitrary interleavings of inbound processing, outbound calls and ack
flushes. -/
inductive SessionEvent where
  | connect (ackInit : Int) : SessionEvent
  | inbound (seq : Int) : SessionEvent
  | callEv (fn : String) (args : List JValue) : SessionEvent
  | flushEv : SessionEvent

/-- Effect of one session event on the room state: `connect` is
`handle_initial_connection` (sets `connected` and the initial `ack`),
`inbound` is the per-entry `this.room.sack = ack` assignment of the
dispatcher, `callEv` is `Room.call` (a throw leaves the state untouched),
`flushEv` is `Room.sendAck`. -/
def applyEvent (st : RoomState) : SessionEvent → RoomState
  | .connect ackInit => { st with connected := true, ack := ackInit }
  | .inbound seq => { st with sack := seq }
  | .callEv fn args =>
    match Room.call st fn args with
    | .ok (st2, _) => st2
    | .error _ => st
  | .flushEv => (Room.sendAck st).1

/-- Run a trace of session events from a starting state. -/
def runTrace (st : RoomState) (trace : List SessionEvent) : RoomState :=
  trace.foldl applyEvent st

/-- An event respects server-sequence monotonicity when an inbound entry
never carries a sequence number below the current `sack`. -/
def eventOk (st : RoomState) : SessionEvent → Bool
  | .inbound seq => decide (st.sack ≤ seq)
  | _ => true

/-- A trace whose inbound sequence numbers are non-decreasing along the
run. -/
def monotoneTrace : RoomState → List SessionEvent → Bool
  | _, [] => true
  | st, e :: rest => eventOk st e && monotoneTrace (applyEvent st e) rest

/-- `Room.chat(msg, options)`: validation happens synchronously before
any frame is built; an `Except.error` result models a throw before any
network effect, so no frame is sent and the state is unchanged. -/
def Room.chat (st : RoomState) (msg : String) (meOpt adminOpt : Bool) :
    Except VolaErr (RoomState × JValue) :=
  if msg.length = 0 then
    .error .emptyMessage
  else if (match st.chat_max_message_length with
           | some maxLen => decide (maxLen < msg.length)
           | none => false) then
    .error .messageTooLong
  else if adminOpt then
    if !st.admin && !st.staff then
      .error .cannotAchat
    else
      Room.call st "command" [.str st.nick, .str "a", .str msg]
  else if meOpt then
    Room.call st "command" [.str st.nick, .str "me", .str msg]
  else
    Room.call st "chat" [.str st.nick, .str msg]

/-- `Room.expireFiles()`: every file whose `expired` getter is true is
removed from the FILES map. -/
def Room.expireFiles (files : List (String × FileEntity)) (now : Int) :
    List (String × FileEntity) :=
  files.filter fun p => !(p.2.expired now)

/-- The `files` getter: `this.expireFiles(); return
Array.from(this[FILES].values());`. -/
def Room.filesAccessor (st : RoomState) (now : Int) : List FileEntity :=
  (Room.expireFiles st.files now).map Prod.snd

/-- The role symbols of message.js. -/
inductive Role where
  | system : Role
  | admin : Role
  | staff : Role
  | user : Role
  | white : Role
deriving DecidableEq, Repr

/-- The author flags a chat message carries (after `Object.assign(this,
FLAGS, data.options)`); `system`, `purple` and `green` are derived
getters, not stored flags. -/
structure MsgFlags where
  admin : Bool
  staff : Bool
  user : Bool
deriving DecidableEq, Repr

/-- `Message.purple`: `this.admin || this.staff`. -/
def MsgFlags.purple (f : MsgFlags) : Bool := f.admin || f.staff

/-- `Message.green`: `this.user`. -/
def MsgFlags.green (f : MsgFlags) : Bool := f.user

/-- `Message.system`: `this.purple && !this.user`. -/
def MsgFlags.system (f : MsgFlags) : Bool := f.purple && !f.user

/-- The role assignment chain of the `Message` constructor. -/
def classifyRole (f : MsgFlags) : Role :=
  if f.system then .system
  else if f.admin then .admin
  else if f.staff then .staff
  else if f.green then .user
  else .white

/-- The callback timeout of `Handler.registerCallback`: `30*1000` ms. -/
def CALLBACK_TIMEOUT : Nat := 30 * 1000

/-- Settlement state of the promise returned by `registerCallback`; a
promise settles at most once. -/
inductive PromiseState where
  | pending : PromiseState
  | resolved (v : JValue) : PromiseState
  | rejectedTimeout : PromiseState
  | rejectedErr (e : JValue) : PromiseState

/-- The callback-RPC bookkeeping: the keys of the `_callbacks` map, the
settlement state of each issued promise, and the active timers with their
absolute fire times. -/
structure CbState where
  table : List Nat
  statuses : List (Nat × PromiseState)
  timers : List (Nat × Nat)

/-- An empty handler callback table. -/
def cbEmpty : CbState := ⟨[], [], []⟩

/-- A settled promise ignores further settlements. -/
def settleStatus : PromiseState → PromiseState → PromiseState
  | .pending, s => s
  | s, _ => s

/-- Settle the promise with the given id. -/
def updateStatus (l : List (Nat × PromiseState)) (id : Nat)
    (s : PromiseState) : List (Nat × PromiseState) :=
  l.map fun p => if p.1 = id then (p.1, settleStatus p.2 s) else p

/-- `Handler.registerCallback()`: schedules a timer that rejects after
`CALLBACK_TIMEOUT`, uses the timer id as correlation id, and stores the
settlement handles in `_callbacks`. -/
def registerCallback (st : CbState) (tid now : Nat) : Nat × CbState :=
  (tid,
   { table := tid :: st.table,
     statuses := (tid, .pending) :: st.statuses,
     timers := (tid, now + CALLBACK_TIMEOUT) :: st.timers })

/-- The timeout firing for id: rejects the promise with the timeout error.
It does not touch the `_callbacks` table. -/
def fireTimeout (st : CbState) (id : Nat) : CbState :=
  match st.timers.lookup id with
  | some _ =>
    { table := st.table,
      statuses := updateStatus st.statuses id .rejectedTimeout,
      timers := st.timers.filter fun p => p.1 != id }
  | none => st

/-- `Handler.handle_callback({id, args})`: always deletes the id from the
table; when an entry was present, clears its timer and settles the
promise from `args = [error, value]`. -/
def handle_callback (st : CbState) (id : Nat) (err : Option JValue)
    (val : JValue) : CbState :=
  let present := st.table.contains id
  let table := st.table.filter fun x => x != id
  if present then
    { table := table,
      timers := st.timers.filter fun p => p.1 != id,
      statuses := updateStatus st.statuses id
        (match err with
         | some e => .rejectedErr e
         | none => .resolved val) }
  else
    { st with table := table }

/-- Follows the words of the spec for comparison: the claimed outbound
call frame shape `[sack, [[0, {fn, args}], ack]]`. -/
def specCallFrame (sack ack : Int) (fn : String) (args : List JValue) : JValue :=
  .arr [.num sack,
        .arr [.arr [.num 0, .obj [("fn", .str fn), ("args", .arr args)]],
              .num ack]]

/-- C7: role classification is a total function of the author flags
(admin, staff, logged-in user): exactly one of the five roles results,
with the stated priority — System for purple authorship (admin or staff)
without the logged-in-user flag, then Admin, then Staff, then User for a
logged-in author, else White. -/
theorem role_classification_total_priority (a s u : Bool) :
    (classifyRole ⟨a, s, u⟩ = .system ↔ ((a || s) && !u) = true)
    ∧ (classifyRole ⟨a, s, u⟩ = .admin ↔ (a && u) = true)
    ∧ (classifyRole ⟨a, s, u⟩ = .staff ↔ (s && !a && u) = true)
    ∧ (classifyRole ⟨a, s, u⟩ = .user ↔ (u && !a && !s) = true)
    ∧ (classifyRole ⟨a, s, u⟩ = .white ↔ (!a && !s && !u) = true) := by
  cases a <;> cases s <;> cases u <;> decide

/-- C8: a chat message one character longer than the configured maximum
message length fails validation synchronously with the "Message too long"
error; the `Except.error` result carries no frame and no state change, so
nothing is sent and the session state is untouched. -/
theorem chat_too_long_rejected (st : RoomState) (msg : String) (maxLen : Nat)
    (me adm : Bool) (hmax : st.chat_max_message_length = some maxLen)
    (hlen : msg.length = maxLen + 1) :
    Room.chat st msg me adm = .error .messageTooLong := by
  simp [Room.chat, hmax, hlen]

/-- Witness for C8 at a concrete room and message. -/
theorem chat_too_long_rejected_witness :
    ({ initialRoom with connected := true, chat_max_message_length := some 2 }
        : RoomState).chat_max_message_length = some 2
    ∧ "abc".length = 2 + 1
    ∧ Room.chat
        { initialRoom with connected := true, chat_max_message_length := some 2 }
        "abc" false false
        = .error .messageTooLong :=
  ⟨rfl, rfl,
   chat_too_long_rejected
     { initialRoom with connected := true, chat_max_message_length := some 2 }
     "abc" 2 false false rfl rfl⟩

/-- C9: every read of the live file collection sweeps expired entries
first, so the `files` accessor never returns an entity whose expiry
instant is strictly in the past. -/
theorem files_accessor_never_expired (st : RoomState) (now : Int)
    (f : FileEntity) (hf : f ∈ Room.filesAccessor st now) :
    f.expired now = false := by
  simp only [Room.filesAccessor, Room.expireFiles, List.mem_map,
    List.mem_filter] at hf
  obtain ⟨p, ⟨_, hkeep⟩, hp⟩ := hf
  subst hp
  simpa using hkeep

/-- Witness for C9 at a concrete file map and clock. -/
theorem files_accessor_never_expired_witness :
    (⟨"a", "a.txt", 10, 0⟩ : FileEntity)
        ∈ Room.filesAccessor
            { initialRoom with files := [("a", ⟨"a", "a.txt", 10, 0⟩)] } 5
    ∧ FileEntity.expired ⟨"a", "a.txt", 10, 0⟩ 5 = false :=
  ⟨by decide,
   files_accessor_never_expired
     { initialRoom with files := [("a", ⟨"a", "a.txt", 10, 0⟩)] } 5
     ⟨"a", "a.txt", 10, 0⟩ (by decide)⟩

/-- C10: `sendAck` sends a frame iff the session is connected and the
last-acknowledged sequence differs from the last-seen server sequence;
after a flush while connected, and after any successful outbound call,
the two sequences agree; hence the second of two consecutive flushes with
no intervening event never sends a frame (flushing is idempotent). -/
theorem sendack_iff_gap_and_idempotent (st : RoomState) :
    ((Room.sendAck st).2.isSome = (st.connected && !(st.last_sack == st.sack)))
    ∧ (st.connected = true →
        (Room.sendAck st).1.last_sack = (Room.sendAck st).1.sack)
    ∧ (∀ (fn : String) (args : List JValue) (st2 : RoomState) (fr : JValue),
        Room.call st fn args = .ok (st2, fr) → st2.last_sack = st2.sack)
    ∧ (Room.sendAck (Room.sendAck st).1).2 = none := by
  refine ⟨?_, ?_, ?_, ?_⟩
  · by_cases hc : st.connected <;> by_cases he : st.last_sack = st.sack <;>
      simp [Room.sendAck, hc, he]
  · intro hc
    by_cases he : st.last_sack = st.sack <;> simp [Room.sendAck, hc, he]
  · intro fn args st2 fr hcall
    by_cases hc : st.connected
    · simp [Room.call, hc] at hcall
      obtain ⟨hst, _⟩ := hcall
      simp [← hst]
    · simp [Room.call, hc] at hcall
  · by_cases hc : st.connected <;> by_cases he : st.last_sack = st.sack <;>
      simp [Room.sendAck, hc, he]

/-- C5 counterexample: at a connected room with `sack = 4`, `ack = 5`,
calling `chat("hi")` does not produce the claimed frame
`[4, [[0, {fn: "chat", args: ["hi"]}], 6]]` — the envelope payload is the
array `["call", {fn, args}]`, not the bare `{fn, args}` object. -/
theorem call_frame_not_spec_shape :
    Room.call { initialRoom with connected := true, sack := 4, ack := 5 }
        "chat" [.str "hi"]
      ≠ .ok
          ({ initialRoom with connected := true, sack := 4, ack := 6, last_sack := 4 },
           specCallFrame 4 6 "chat" [.str "hi"]) := by
  simp [Room.call, initialRoom, buildCallFrame, specCallFrame]

/-- C5 amended: while connected, the serialized outbound call frame is
exactly `[sack, [[0, ["call", {fn, args}]], ack]]` with `ack` the
incremented outbound count; ack-only frames are `[sack]`; close frames
are `[sack, [[2], ack]]`. -/
theorem outbound_frame_formats (st : RoomState) (fn : String)
    (args : List JValue) (hconn : st.connected = true) :
    (Room.call st fn args =
      .ok ({ st with ack := st.ack + 1, last_sack := st.sack },
           .arr [.num st.sack,
                 .arr [.arr [.num 0,
                             .arr [.str "call",
                                   .obj [("fn", .str fn),
                                         ("args", .arr args)]]],
                       .num (st.ack + 1)]]))
    ∧ (st.last_sack ≠ st.sack →
        Room.sendAck st
          = ({ st with last_sack := st.sack }, some (.arr [.num st.sack])))
    ∧ (Room.sendClose st =
        .ok ({ st with ack := st.ack + 1 },
             .arr [.num st.sack, .arr [.arr [.num 2], .num (st.ack + 1)]])) := by
  refine ⟨?_, ?_, ?_⟩
  · simp [Room.call, hconn, buildCallFrame]
  · intro hne
    simp [Room.sendAck, hconn, hne, buildAckFrame]
  · simp [Room.sendClose, hconn, buildCloseFrame]

/-- Witness for C5 at a concrete connected room. -/
theorem outbound_frame_formats_witness :
    ({ initialRoom with connected := true, sack := 4, ack := 5, last_sack := 2 }
        : RoomState).connected = true
    ∧ Room.call
        { initialRoom with connected := true, sack := 4, ack := 5, last_sack := 2 }
        "chat" [.str "hi"]
      = .ok
          ({ initialRoom with connected := true, sack := 4, ack := 6, last_sack := 4 },
           .arr [.num 4,
                   .arr [.arr [.num 0,
                               .arr [.str "call",
                                     .obj [("fn", .str "chat"),
                                           ("args", .arr [.str "hi"])]]],
                         .num 6]]) :=
  ⟨rfl,
   (outbound_frame_formats
     { initialRoom with connected := true, sack := 4, ack := 5, last_sack := 2 }
     "chat" [.str "hi"] rfl).1⟩

/-- C2 counterexample: registering a callback at time 0 and letting its
timer fire at the 30-second mark leaves the promise rejected with the
timeout error while the correlation id is still present in the pending
callback table — the timeout path never deletes the entry. -/
theorem callback_timeout_entry_not_removed :
    (fireTimeout (registerCallback cbEmpty 1 0).2 1).statuses.lookup 1
        = some .rejectedTimeout
    ∧ (fireTimeout (registerCallback cbEmpty 1 0).2 1).table.contains 1 = true :=
  ⟨rfl, rfl⟩

/-- C2 amended: an RPC that never receives a matching callback envelope
has its timer fire exactly `30*1000` ms after registration, rejecting the
promise with the timeout error; the correlation id, however, remains in
the pending table (only a later matching callback envelope removes it —
`handle_callback` always deletes the id). -/
theorem callback_timeout_rejects_entry_remains (st : CbState) (tid now : Nat) :
    ((registerCallback st tid now).2.timers.lookup tid = some (now + 30 * 1000))
    ∧ ((fireTimeout (registerCallback st tid now).2 tid).statuses.lookup tid
        = some .rejectedTimeout)
    ∧ ((fireTimeout (registerCallback st tid now).2 tid).table
        = (registerCallback st tid now).2.table)
    ∧ (tid ∈ (registerCallback st tid now).2.table)
    ∧ (∀ (st2 : CbState) (err : Option JValue) (v : JValue),
        tid ∉ (handle_callback st2 tid err v).table) := by
  refine ⟨?_, ?_, ?_, ?_, ?_⟩
  · simp [registerCallback, List.lookup, CALLBACK_TIMEOUT]
  · simp [registerCallback, fireTimeout, List.lookup, updateStatus,
      settleStatus]
  · simp [registerCallback, fireTimeout, List.lookup]
  · simp [registerCallback]
  · intro st2 err v
    simp only [handle_callback]
    split <;> simp [List.mem_filter]

/-- One session event preserves `last_sack ≤ sack` and never decreases
`last_sack`, provided an inbound event does not regress the server
sequence. -/
theorem applyEvent_inv (st : RoomState) (e : SessionEvent)
    (hinv : st.last_sack ≤ st.sack) (hok : eventOk st e = true) :
    (applyEvent st e).last_sack ≤ (applyEvent st e).sack
    ∧ st.last_sack ≤ (applyEvent st e).last_sack := by
  cases e with
  | connect ackInit => exact ⟨hinv, le_refl _⟩
  | inbound seq =>
    simp only [eventOk, decide_eq_true_eq] at hok
    exact ⟨le_trans hinv hok, le_refl _⟩
  | callEv fn args =>
    by_cases hc : st.connected <;>
      simp [applyEvent, Room.call, hc, hinv]
  | flushEv =>
    by_cases hc : st.connected <;> by_cases he : st.last_sack = st.sack <;>
      simp [applyEvent, Room.sendAck, hc, he, hinv]

/-- Monotonicity of a concatenated trace splits at the junction state. -/
theorem monotoneTrace_append (p q : List SessionEvent) : ∀ st : RoomState,
    monotoneTrace st (p ++ q)
      = (monotoneTrace st p && monotoneTrace (runTrace st p) q) := by
  induction p with
  | nil => intro st; simp [monotoneTrace, runTrace]
  | cons e rest ih =>
    intro st
    simp [monotoneTrace, runTrace, ih (applyEvent st e), Bool.and_assoc]

/-- Along any monotone trace, the invariant `last_sack ≤ sack` is
preserved and `last_sack` never decreases. -/
theorem runTrace_inv (trace : List SessionEvent) : ∀ st : RoomState,
    st.last_sack ≤ st.sack → monotoneTrace st trace = true →
    ((runTrace st trace).last_sack ≤ (runTrace st trace).sack
     ∧ st.last_sack ≤ (runTrace st trace).last_sack) := by
  induction trace with
  | nil =>
    intro st hinv _
    exact ⟨hinv, le_refl _⟩
  | cons e rest ih =>
    intro st hinv hm
    simp only [monotoneTrace, Bool.and_eq_true] at hm
    obtain ⟨hok, hrest⟩ := hm
    obtain ⟨h1, h2⟩ := applyEvent_inv st e hinv hok
    obtain ⟨h3, h4⟩ := ih (applyEvent st e) h1 hrest
    refine ⟨?_, le_trans h2 ?_⟩
    · simpa [runTrace] using h3
    · simpa [runTrace] using h4

/-- C1 counterexample: the claim quantifies over every sequence of
inbound frames, but nothing in the code prevents a server-sequence
regression. After connect, inbound seq 5, an outbound call (which records
`last_sack = 5`) and inbound seq 3, the last-acknowledged sequence 5
exceeds the last-seen server sequence 3. -/
theorem sack_regression_breaks_invariant :
    (runTrace initialRoom
        [.connect 0, .inbound 5, .callEv "chat" [], .inbound 3]).sack
      < (runTrace initialRoom
          [.connect 0, .inbound 5, .callEv "chat" [], .inbound 3]).last_sack := by
  decide

/-- C1 amended: over every interleaving of inbound events, outbound
calls and ack flushes whose inbound sequence numbers never regress below
the current last-seen server sequence, `last_sack` is non-decreasing over
time (prefix vs. full trace) and never exceeds `sack`. -/
theorem sequencer_ack_invariant_monotone (p q : List SessionEvent)
    (h : monotoneTrace initialRoom (p ++ q) = true) :
    ((runTrace initialRoom (p ++ q)).last_sack
        ≤ (runTrace initialRoom (p ++ q)).sack)
    ∧ ((runTrace initialRoom p).last_sack
        ≤ (runTrace initialRoom (p ++ q)).last_sack) := by
  have hsplit := monotoneTrace_append p q initialRoom
  rw [h] at hsplit
  have hpq : monotoneTrace initialRoom p = true
      ∧ monotoneTrace (runTrace initialRoom p) q = true := by
    have := hsplit.symm
    simpa [Bool.and_eq_true] using this
  have hinv0 : initialRoom.last_sack ≤ initialRoom.sack := by decide
  obtain ⟨hp1, _⟩ := runTrace_inv p initialRoom hinv0 hpq.1
  obtain ⟨hq1, hq2⟩ := runTrace_inv q (runTrace initialRoom p) hp1 hpq.2
  have happ : runTrace initialRoom (p ++ q)
      = runTrace (runTrace initialRoom p) q := by
    simp [runTrace, List.foldl_append]
  exact ⟨happ ▸ hq1, happ ▸ hq2⟩

/-- Witness for C1 at a concrete monotone trace. -/
theorem sequencer_ack_invariant_monotone_witness :
    monotoneTrace initialRoom
        ([.connect 0, .inbound 2] ++ [.callEv "chat" [], .inbound 7, .flushEv])
        = true
    ∧ (((runTrace initialRoom
          ([.connect 0, .inbound 2]
            ++ [.callEv "chat" [], .inbound 7, .flushEv])).last_sack
        ≤ (runTrace initialRoom
            ([.connect 0, .inbound 2]
              ++ [.callEv "chat" [], .inbound 7, .flushEv])).sack)
       ∧ ((runTrace initialRoom [.connect 0, .inbound 2]).last_sack
          ≤ (runTrace initialRoom
              ([.connect 0, .inbound 2]
                ++ [.callEv "chat" [], .inbound 7, .flushEv])).last_sack)) :=
  ⟨by decide,
   sequencer_ack_invariant_monotone [.connect 0, .inbound 2]
     [.callEv "chat" [], .inbound 7, .flushEv] (by decide)⟩

/-- The ack flush check never touches the invocation trace. -/
theorem ackFlushCheck_invoked (d : Dispatch) :
    (ackFlushCheck d).invoked = d.invoked := by
  unfold ackFlushCheck
  split <;> rfl

/-- The ack flush check never touches the exception log. -/
theorem ackFlushCheck_logged (d : Dispatch) :
    (ackFlushCheck d).logged = d.logged := by
  unfold ackFlushCheck
  split <;> rfl

/-- The ack flush check never touches the emitted events. -/
theorem ackFlushCheck_events (d : Dispatch) :
    (ackFlushCheck d).events = d.events := by
  unfold ackFlushCheck
  split <;> rfl

/-- One dispatcher iteration extends the invocation trace by exactly the
typed envelope of the entry (and by nothing for a close control). -/
theorem stepEntry_invoked (handler : HandlerFun) (d : Dispatch) (e : Entry) :
    (stepEntry handler d e).invoked = d.invoked ++ typedEnvelopes [e] := by
  obtain ⟨body, seq⟩ := e
  cases body with
  | close => simp [stepEntry, typedEnvelopes]
  | typed ty payload =>
    simp [stepEntry, typedEnvelopes, ackFlushCheck_invoked, dispatchHandle]

/-- One dispatcher iteration only appends to the exception log. -/
theorem stepEntry_logged_mono (handler : HandlerFun) (d : Dispatch)
    (e : Entry) (x : String × JValue) (hx : x ∈ d.logged) :
    x ∈ (stepEntry handler d e).logged := by
  obtain ⟨body, seq⟩ := e
  cases body with
  | close => simpa [stepEntry] using hx
  | typed ty payload =>
    simp [stepEntry, ackFlushCheck_logged, dispatchHandle, hx]

/-- A handler exception gets the offending type and payload logged by the
inner catch of the dispatcher iteration. -/
theorem stepEntry_logs_thrown (handler : HandlerFun) (d : Dispatch)
    (ty : String) (p : JValue) (s : Int) (m : String)
    (h : (handler ty p { d.room with sack := s }).thrown = some m) :
    (ty, p) ∈ (stepEntry handler d ⟨.typed ty p, s⟩).logged := by
  simp [stepEntry, ackFlushCheck_logged, dispatchHandle, h]

/-- The dispatcher folds over the complete batch and invokes the handler
of every typed envelope. -/
theorem foldl_stepEntry_invoked (handler : HandlerFun) :
    ∀ (entries : List Entry) (d : Dispatch),
    (entries.foldl (stepEntry handler) d).invoked
      = d.invoked ++ typedEnvelopes entries := by
  intro entries
  induction entries with
  | nil => intro d; simp [typedEnvelopes]
  | cons e rest ih =>
    intro d
    rw [List.foldl_cons, ih (stepEntry handler d e), stepEntry_invoked]
    obtain ⟨body, seq⟩ := e
    cases body <;> simp [typedEnvelopes]

/-- Entries logged earlier stay logged for the rest of the batch. -/
theorem foldl_stepEntry_logged_mono (handler : HandlerFun) :
    ∀ (entries : List Entry) (d : Dispatch) (x : String × JValue),
    x ∈ d.logged → x ∈ (entries.foldl (stepEntry handler) d).logged := by
  intro entries
  induction entries with
  | nil => intro d x hx; simpa using hx
  | cons e rest ih =>
    intro d x hx
    rw [List.foldl_cons]
    exact ih (stepEntry handler d e) x (stepEntry_logged_mono handler d e x hx)

/-- C3: handler execution is isolated per envelope. If the handler of one
envelope in a batch raises, the offending type and payload are logged by
the inner catch, and the dispatcher loop still completes for the whole
batch: the handler of every typed envelope of the batch, including all
later ones, is invoked. -/
theorem dispatcher_isolates_handler_exceptions (handler : HandlerFun)
    (st : RoomState) (a : Int) (xs ys : List Entry) (ty : String) (p : JValue)
    (s : Int) (m : String)
    (hthrow : (handler ty p
        { (onmessageArray handler st a xs).room with sack := s }).thrown
      = some m) :
    ((ty, p) ∈ (onmessageArray handler st a
        (xs ++ ⟨.typed ty p, s⟩ :: ys)).logged)
    ∧ ((onmessageArray handler st a (xs ++ ⟨.typed ty p, s⟩ :: ys)).invoked
        = typedEnvelopes (xs ++ ⟨.typed ty p, s⟩ :: ys)) := by
  constructor
  · have hsplit : onmessageArray handler st a (xs ++ ⟨.typed ty p, s⟩ :: ys)
        = ys.foldl (stepEntry handler)
            (stepEntry handler (onmessageArray handler st a xs)
              ⟨.typed ty p, s⟩) := by
      simp [onmessageArray, List.foldl_append]
    rw [hsplit]
    exact foldl_stepEntry_logged_mono handler ys _ _
      (stepEntry_logs_thrown handler _ ty p s m hthrow)
  · have := foldl_stepEntry_invoked handler (xs ++ ⟨.typed ty p, s⟩ :: ys)
      { room := { st with last_ack := a } }
    simpa [onmessageArray] using this

/-- Witness for C3: an always-throwing handler over a three-envelope
batch; the middle envelope is logged and all three are still invoked. -/
theorem dispatcher_isolates_handler_exceptions_witness :
    ((fun _ _ r => ⟨r, [], some "boom"⟩ : HandlerFun) "bad" .null
        { (onmessageArray (fun _ _ r => ⟨r, [], some "boom"⟩) initialRoom 0
            [⟨.typed "chat" .null, 1⟩]).room with sack := 5 }).thrown
      = some "boom"
    ∧ (((("bad" : String), (JValue.null)) ∈ (onmessageArray
          (fun _ _ r => ⟨r, [], some "boom"⟩) initialRoom 0
          ([⟨.typed "chat" .null, 1⟩]
            ++ ⟨.typed "bad" .null, 5⟩ :: [⟨.typed "users" (.num 3), 2⟩])).logged)
       ∧ ((onmessageArray (fun _ _ r => ⟨r, [], some "boom"⟩) initialRoom 0
            ([⟨.typed "chat" .null, 1⟩]
              ++ ⟨.typed "bad" .null, 5⟩ :: [⟨.typed "users" (.num 3), 2⟩])).invoked
          = typedEnvelopes
              ([⟨.typed "chat" .null, 1⟩]
                ++ ⟨.typed "bad" .null, 5⟩ :: [⟨.typed "users" (.num 3), 2⟩]))) :=
  ⟨rfl,
   dispatcher_isolates_handler_exceptions (fun _ _ r => ⟨r, [], some "boom"⟩)
     initialRoom 0 [⟨.typed "chat" .null, 1⟩] [⟨.typed "users" (.num 3), 2⟩]
     "bad" .null 5 "boom" rfl⟩

/-- C4: after a typed envelope is handled, the dispatcher flushes a
standalone acknowledgment frame exactly when the session is connected and
the gap between the last-seen server sequence and the last-acknowledged
sequence has reached `MAX_UNACKNOWLEDGED = 10`; and on a transport
liveness ping, `sendAck` sends exactly when the session is connected and
a non-zero gap exists. -/
theorem ack_flush_threshold_and_ping (d : Dispatch) :
    ((ackFlushCheck d).frames
      = d.frames
        ++ (if d.room.connected = true
               ∧ 10 ≤ d.room.sack - d.room.last_sack
            then [buildAckFrame d.room.sack] else []))
    ∧ (∀ st : RoomState,
        (Room.sendAck st).2
          = if st.connected = true ∧ st.last_sack ≠ st.sack
            then some (buildAckFrame st.sack) else none) := by
  constructor
  · by_cases hgap : d.room.last_sack + MAX_UNACKNOWLEDGED ≤ d.room.sack
    · have hgap10 : (10 : Int) ≤ d.room.sack - d.room.last_sack := by
        simp only [MAX_UNACKNOWLEDGED] at hgap; omega
      by_cases hc : d.room.connected
      · have hne : ¬ d.room.last_sack = d.room.sack := by
          simp only [MAX_UNACKNOWLEDGED] at hgap; omega
        simp [ackFlushCheck, hgap, Room.sendAck, hc, hne, hgap10]
      · simp [ackFlushCheck, hgap, Room.sendAck, hc]
    · have hgap10 : ¬ (10 : Int) ≤ d.room.sack - d.room.last_sack := by
        simp only [MAX_UNACKNOWLEDGED] at hgap; omega
      simp [ackFlushCheck, hgap, hgap10]
  · intro st
    by_cases hc : st.connected <;> by_cases he : st.last_sack = st.sack <;>
      simp [Room.sendAck, hc, he]

/-- C6: a close control envelope (numeric type 2) received while
connected drives the session to the closed state, emits no event (in
particular no error event) and logs nothing — failures of the close
sequence itself are swallowed. -/
theorem close_envelope_closes_without_error (handler : HandlerFun)
    (d : Dispatch) (e : Entry) (hbody : e.body = .close)
    (hconn : d.room.connected = true) :
    ((stepEntry handler d e).room.closed = true)
    ∧ ((stepEntry handler d e).events = d.events)
    ∧ ((stepEntry handler d e).logged = d.logged) := by
  obtain ⟨body, seq⟩ := e
  cases hbody
  simp [stepEntry, Room.close, Room.sendClose, hconn]

/-- Witness for C6 at a concrete connected room and close entry. -/
theorem close_envelope_closes_without_error_witness :
    (⟨.close, 9⟩ : Entry).body = .close
    ∧ ({ room := { initialRoom with connected := true } } : Dispatch).room.connected
        = true
    ∧ (((stepEntry (fun _ _ r => ⟨r, [], none⟩)
          { room := { initialRoom with connected := true } }
          ⟨.close, 9⟩).room.closed = true)
       ∧ ((stepEntry (fun _ _ r => ⟨r, [], none⟩)
            { room := { initialRoom with connected := true } }
            ⟨.close, 9⟩).events
          = ({ room := { initialRoom with connected := true } } : Dispatch).events)
       ∧ ((stepEntry (fun _ _ r => ⟨r, [], none⟩)
            { room := { initialRoom with connected := true } }
            ⟨.close, 9⟩).logged
          = ({ room := { initialRoom with connected := true } } : Dispatch).logged)) :=
  ⟨rfl, rfl,
   close_envelope_closes_without_error (fun _ _ r => ⟨r, [], none⟩)
     { room := { initialRoom with connected := true } } ⟨.close, 9⟩ rfl rfl⟩

end Volapi
